import Mathlib

/-!
Verification of the order reconciliation core of the refurbed repository.

The definitions below are shallow embeddings of the Python functions in
src/integration/refurbed.py, src/integration/main.py and
src/integration/idosell.py.  Machine data read from the spreadsheet is
modelled as lists of strings (gspread get_all_values returns strings);
rows written by the row mapper are lists of Cell values, since the mapper
writes both strings and numbers (the vat column).  Fallible code is
modelled with Except; network responses are injected through environment
records.
-/

/-- A spreadsheet cell as written by the row mapper: a string, or a numeric
value (the Python code writes ints and floats into the vat column). -/
inductive Cell where
  | s (v : String)
  | num (v : ℚ)
  deriving DecidableEq, Repr

/-- Offer data embedded in an order item (refurbed.py reads offer_grading
and battery_condition from it). -/
structure OfferData where
  offer_grading : String
  battery_condition : String
  deriving DecidableEq, Repr

/-- One marketplace order line item.  total_charged is used by the ERP
builder precondition; offer_data is optional, matching the Python
membership test for the offer_data key. -/
structure Item where
  name : String
  sku : String
  offer_data : Option OfferData
  total_charged : ℚ
  deriving DecidableEq, Repr

/-- A shipping or invoice address of a marketplace order. -/
structure Address where
  country_code : String
  first_name : String
  family_name : String
  phone_number : String
  company_vatin : String
  company_name : String
  street_name : String
  house_no : String
  supplement : String
  post_code : String
  town : String
  deriving DecidableEq, Repr

/-- A fetched marketplace order, as consumed by process_orders and by the
ERP order builder. -/
structure Order where
  id : String
  state : String
  settlement_currency_code : String
  settlement_total_paid : String
  total_charged : ℚ
  released_at : String
  customer_email : String
  items : List Item
  shipping_address : Address
  invoice_address : Address
  deriving DecidableEq, Repr

def emptyOffer : OfferData := ⟨"", ""⟩

def emptyItem : Item := ⟨"", "", none, 0⟩

def emptyAddress : Address := ⟨"", "", "", "", "", "", "", "", "", "", ""⟩

def emptyOrder : Order := ⟨"", "", "", "", 0, "", "", [], emptyAddress, emptyAddress⟩

/-- The VAT rate table of RefurbedAPI.vat_rates (refurbed.py lines 30-58),
entry by entry. -/
def vat_rates (cc : String) : Option ℚ :=
  if cc = "AT" then some 20
  else if cc = "BE" then some 21
  else if cc = "BG" then some 20
  else if cc = "HR" then some 25
  else if cc = "CY" then some 19
  else if cc = "CZ" then some 21
  else if cc = "DK" then some 25
  else if cc = "EE" then some 22
  else if cc = "FI" then some (51 / 2)
  else if cc = "FR" then some 20
  else if cc = "GR" then some 24
  else if cc = "DE" then some 19
  else if cc = "ES" then some 21
  else if cc = "NL" then some 21
  else if cc = "IE" then some 23
  else if cc = "LU" then some 17
  else if cc = "LT" then some 21
  else if cc = "LV" then some 21
  else if cc = "MT" then some 18
  else if cc = "PL" then some 23
  else if cc = "PT" then some 23
  else if cc = "RO" then some 19
  else if cc = "SK" then some 23
  else if cc = "SI" then some 22
  else if cc = "SE" then some 25
  else if cc = "HU" then some 27
  else if cc = "IT" then some 22
  else none

/-- Does the character list start with the given pattern (both exact). -/
def beginsWith : List Char → List Char → Bool
  | _, [] => true
  | [], _ :: _ => false
  | c :: cs, p :: ps => c == p && beginsWith cs ps

/-- Does the character list contain the pattern as a contiguous run
(the semantics of the Python `in` operator on strings). -/
def hasSub : List Char → List Char → Bool
  | [], p => p.isEmpty
  | c :: cs, p => beginsWith (c :: cs) p || hasSub cs p

/-- Python substring containment: pat in s. -/
def strContains (s pat : String) : Bool :=
  hasSub s.toList pat.toList

/-- Python str.lower, character by character (ASCII semantics, which is
all the comparison below needs). -/
def toLowerStr (s : String) : String :=
  String.mk (s.toList.map Char.toLower)

/-- refurbed.py line 202: "iphone" in item_name.lower() if item_name else
False. -/
def isIphone (item_name : String) : Bool :=
  if item_name = "" then false else strContains (toLowerStr item_name) "iphone"

/-- The VAT computation of process_orders (refurbed.py lines 196-222):
vat_value starts at 0; non-iphone orders with a known country get the table
rate, or 23 / 0 when a business tax number is present (23 for PL, 0
otherwise); unknown countries leave the initial 0; iphone orders get the
-1 sentinel. -/
def vatValue (country_code vat_number item_name : String) : Cell :=
  if isIphone item_name = false then
    match vat_rates country_code with
    | some r =>
      if vat_number ≠ "" then
        (if country_code = "PL" then Cell.num 23 else Cell.num 0)
      else Cell.num r
    | none => Cell.num 0
  else Cell.num (-1)

/-- The row built for one order by process_orders (refurbed.py lines
188-261): the 19-cell sheet row. -/
def orderRow (o : Order) : List Cell :=
  let shipping := o.shipping_address
  let item := o.items.headD emptyItem
  let country_code := shipping.country_code
  let vat_number := o.invoice_address.company_vatin
  let item_name := item.name
  let vat_value := vatValue country_code vat_number item_name
  let klasa0 := match item.offer_data with
    | some od => od.offer_grading
    | none => ""
  let battery_replace := match item.offer_data with
    | some od => if od.battery_condition = "NEW" then "TRUE" else "FALSE"
    | none => "FALSE"
  let klasa := if isIphone item_name = false then
      (if klasa0 = "B" then "A 2" else if klasa0 = "C" then "A-" else klasa0)
    else ""
  [ Cell.s "FALSE",
    Cell.s o.state,
    Cell.s country_code,
    Cell.s o.settlement_currency_code,
    Cell.s o.settlement_total_paid,
    vat_value,
    Cell.s "",
    Cell.s klasa,
    Cell.s "FALSE",
    Cell.s battery_replace,
    Cell.s "",
    Cell.s "",
    Cell.s item.sku,
    Cell.s item_name,
    Cell.s o.customer_email,
    Cell.s shipping.first_name,
    Cell.s shipping.family_name,
    Cell.s shipping.phone_number,
    Cell.s o.id ]

/-- process_orders (refurbed.py lines 176-270): maps every order to a sheet
row and tracks the id of the last processed order. -/
def processOrders (orders : List Order) : List (List Cell) × String :=
  orders.foldl (fun acc o => (acc.1 ++ [orderRow o], o.id)) ([], "")

/-- The two pieces of spreadsheet state touched by the fetch engine: the
Orders sheet rows (header included) and the cursor cell A2 of the Config
sheet. -/
structure SheetState where
  ordersRows : List (List Cell)
  cursorCell : String
  deriving DecidableEq, Repr

/-- update_sheets (refurbed.py lines 272-301): appends the rows and writes
the cursor cell only when last_id is non-empty. -/
def update_sheets (st : SheetState) (sheet_rows : List (List Cell)) (last_id : String) :
    SheetState :=
  ⟨st.ordersRows ++ sheet_rows, if last_id ≠ "" then last_id else st.cursorCell⟩

/-- The sheet rows scanned by fetch_missing_orders (refurbed.py line 351):
the last 100 rows if the sheet has more than 100, otherwise everything
after the header. -/
def recentRows (allRows : List (List Cell)) : List (List Cell) :=
  if allRows.length > 100 then allRows.drop (allRows.length - 100) else allRows.drop 1

/-- The ids collected from the recent rows (refurbed.py lines 354-356):
cell 18 of every row that has more than 18 cells. -/
def recentSheetIds (allRows : List (List Cell)) : List Cell :=
  ((recentRows allRows).filter (fun r => decide (18 < r.length))).map
    (fun r => r.getD 18 (Cell.s ""))

/-- The missing-order filter of fetch_missing_orders (refurbed.py lines
378-381): fetched orders whose id is not among the recent sheet ids and
whose state is neither SHIPPED nor CANCELLED. -/
def missingFilter (allRows : List (List Cell)) (orders : List Order) : List Order :=
  orders.filter (fun o =>
    decide (Cell.s o.id ∉ recentSheetIds allRows) &&
    decide (o.state ∉ (["SHIPPED", "CANCELLED"] : List String)))

/-- fetch_missing_orders (refurbed.py lines 332-400): appends a row for
every missing order, in reverse-fetched order, passing the empty string as
last_id; returns the updated state and the recovered-order count. -/
def fetch_missing_orders (st : SheetState) (orders : List Order) : SheetState × Nat :=
  let new_orders := missingFilter st.ordersRows orders
  if new_orders ≠ [] then
    let sheet_rows := (processOrders new_orders).1.reverse
    (update_sheets st sheet_rows "", sheet_rows.length)
  else (st, 0)

/-- Python str.upper, character by character (ASCII semantics, which is
all the checkbox comparison needs). -/
def toUpperStr (s : String) : String :=
  String.mk (s.toList.map Char.toUpper)

/-- get_pending_rows scan loop (main.py lines 58-87): walk data rows from
sheet row 2, stop at the first structurally empty row; a row with fewer
than two cells makes the Python cell accesses raise, which the enclosing
handler turns into returning the rows collected so far. -/
def pendingScan : Nat → List (List String) → List Nat
  | _, [] => []
  | i, row :: rest =>
    if row = [] then []
    else if 2 ≤ row.length then
      if toUpperStr (row.getD 0 "") = "TRUE" ∧ row.getD 1 "" = "NEW" then
        i :: pendingScan (i + 1) rest
      else pendingScan (i + 1) rest
    else []

/-- Integration.get_pending_rows (main.py lines 58-87). -/
def get_pending_rows (data : List (List String)) : List Nat :=
  pendingScan 2 (data.drop 1)

/-- The qualifying predicate of get_pending_rows, as the spec words it:
checkbox cell case-insensitively TRUE and state cell NEW. -/
def pendingPred (row : List String) : Bool :=
  toUpperStr (row.getD 0 "") == "TRUE" && row.getD 1 "" == "NEW"

/-- The selector the spec describes: qualifying row indices (first data
row = sheet row 2) of the contiguous block before the first empty row. -/
def pendingSpec (data : List (List String)) : List Nat :=
  ((((data.drop 1).takeWhile (fun r => !r.isEmpty)).enumFrom 2).filter
    (fun p => pendingPred p.2)).map Prod.fst

/-- Result of the get_config_rows scan loop (main.py lines 89-109): either
the loop returned early with the collected slots because needed reached 0,
or it ran off the end with the slots found, or a short row made a cell
access raise. -/
inductive ConfigScan where
  | found (rows : List Nat)
  | ended (rows : List Nat)
  | failed
  deriving DecidableEq, Repr

/-- The scan loop of get_config_rows: a slot is a row whose cells 3 and 4
are both empty; needed is decremented per slot and the loop returns as soon
as it reaches 0.  Rows with at most 3 cells raise on the first access; rows
with exactly 4 cells raise on the second access only when the first cell
was empty (Python short-circuit). -/
def configScan : Int → Nat → List (List String) → ConfigScan
  | _, _, [] => .ended []
  | needed, i, row :: rest =>
    if row.length ≤ 3 then .failed
    else if row.getD 3 "" = "" then
      if row.length ≤ 4 then .failed
      else if row.getD 4 "" = "" then
        if needed - 1 = 0 then .found [i]
        else
          match configScan (needed - 1) (i + 1) rest with
          | .found rs => .found (i :: rs)
          | .ended rs => .ended (i :: rs)
          | .failed => .failed
      else configScan needed (i + 1) rest
    else configScan needed (i + 1) rest

/-- Integration.get_config_rows (main.py lines 89-109): none when the scan
raised or found nothing, otherwise the collected slot row numbers. -/
def get_config_rows (needed : Int) (data : List (List String)) : Option (List Nat) :=
  match configScan needed 2 (data.drop 1) with
  | .found rs => some rs
  | .ended rs => if rs = [] then none else some rs
  | .failed => none

/-- Write one (ref_id, idosell_id) pair into cells 3 and 4 of the config
row with the given 1-based sheet row number. -/
def setPairAt (config : List (List String)) (rowIdx : Nat) (p : String × String) :
    List (List String) :=
  config.set (rowIdx - 1) (((config.getD (rowIdx - 1) []).set 3 p.1).set 4 p.2)

/-- The batch update of the slot-filling branch of update_config (main.py
lines 126-137): pair i goes into free slot i. -/
def fillSlots (config : List (List String)) : List Nat → List (String × String) →
    List (List String)
  | [], _ => config
  | _ :: _, [] => config
  | r :: rs, p :: ps => fillSlots (setPairAt config r p) rs ps

/-- The rows produced by the append branch of update_config (main.py lines
139-158): an appended empty 5-cell row whose cells 3 and 4 are then set. -/
def appendedPairRows (created : List (String × String)) : List (List String) :=
  created.map (fun c => ["", "", "", c.1, c.2])

/-- Integration.update_config (main.py lines 111-163): fill free slots when
at least as many free slots as created orders were found, otherwise append
one new row per created order. -/
def update_config (config : List (List String)) (created : List (String × String)) :
    List (List String) :=
  if created = [] then config
  else
    match get_config_rows (Int.ofNat created.length) config with
    | some empty_rows =>
      if created.length ≤ empty_rows.length then
        fillSlots config (empty_rows.take created.length) created
      else config ++ appendedPairRows created
    | none => config ++ appendedPairRows created

/-- The kit cell of a pending row: cell 6, id_zestawu. -/
def kitOf (row : List String) : String := row.getD 6 ""

/-- The deduplication loop of create_orders (idosell.py lines 94-102): keep
a row only when its kit cell value was not seen before, whatever that value
is. -/
def filterPendingGo (seen : List String) : List (String × List String) →
    List (String × List String)
  | [] => []
  | p :: rest =>
    if kitOf p.2 ∈ seen then filterPendingGo seen rest
    else p :: filterPendingGo (kitOf p.2 :: seen) rest

/-- The filtered pending rows of create_orders (idosell.py lines 94-108). -/
def filterPendingRows (pending : List (String × List String)) :
    List (String × List String) :=
  filterPendingGo [] pending

/-- One component of an ERP product bundle, as returned by get_product. -/
structure BundleItem where
  productId : String
  isBundleShown : Bool
  deriving DecidableEq, Repr

/-- External ERP behaviour injected into the order builder: the bundle
composition returned by get_product, its HTTP status, and the status and
assigned serial number of the order-creation POST. -/
structure ErpEnv where
  bundles : String → List BundleItem
  productStatus : Nat
  createStatus : Nat
  createSerial : String

/-- An ERP API call issued by the order builder, in issue order. -/
inductive ApiCall where
  | getProduct (productId : String)
  | createOrder
  deriving DecidableEq, Repr

/-- The country_names table of IdoSellAPI (idosell.py lines 28-56). -/
def country_names (cc : String) : Option String :=
  if cc = "AT" then some "Austria"
  else if cc = "BE" then some "Belgia"
  else if cc = "BG" then some "Bułgaria"
  else if cc = "HR" then some "Chorwacja"
  else if cc = "CY" then some "Cypr"
  else if cc = "CZ" then some "Czechy"
  else if cc = "DK" then some "Dania"
  else if cc = "EE" then some "Estonia"
  else if cc = "FI" then some "Finlandia"
  else if cc = "FR" then some "Francja"
  else if cc = "GR" then some "Grecja"
  else if cc = "DE" then some "Niemcy"
  else if cc = "ES" then some "Hiszpania"
  else if cc = "NL" then some "Holandia"
  else if cc = "IE" then some "Irlandia"
  else if cc = "LU" then some "Luksemburg"
  else if cc = "LT" then some "Litwa"
  else if cc = "LV" then some "Łotwa"
  else if cc = "MT" then some "Malta"
  else if cc = "PL" then some "Polska"
  else if cc = "PT" then some "Portugalia"
  else if cc = "RO" then some "Rumunia"
  else if cc = "SK" then some "Słowacja"
  else if cc = "SI" then some "Słowenia"
  else if cc = "SE" then some "Szwecja"
  else if cc = "HU" then some "Węgry"
  else if cc = "IT" then some "Włochy"
  else none

/-- The lang_ids table of IdoSellAPI (idosell.py lines 58-65). -/
def lang_ids (cc : String) : Option String :=
  if cc = "PL" then some "pol"
  else if cc = "EN" then some "eng"
  else if cc = "DE" then some "ger"
  else if cc = "FR" then some "fre"
  else if cc = "IT" then some "ita"
  else if cc = "ES" then some "spa"
  else none

/-- Python lstrip("M"): drop every leading M character. -/
def lstripM (s : String) : String :=
  String.mk (s.toList.dropWhile (fun c => c == 'M'))

/-- The hard-drive extraction of _prepare_order_notes (idosell.py lines
341-347): the first pipe segment holding a GB/TB SSD/HDD marker, cut at the
marker and trimmed. -/
def hardDriveOf : List String → String
  | [] => ""
  | part :: rest =>
    let p := part.trim
    if strContains p "GB SSD" || strContains p "TB SSD" ||
        strContains p "GB HDD" || strContains p "TB HDD" then
      ((((p.splitOn "SSD").headD "").splitOn "HDD").headD "").trim
    else hardDriveOf rest

/-- Python str(id_matki): None prints as the text None. -/
def matkiStr : Option String → String
  | none => "None"
  | some s => s

/-- _prepare_order_notes (idosell.py lines 332-361). -/
def prepare_order_notes (data_row : List String) (id_matki : Option String) : String :=
  let item_parts := (data_row.getD 13 "").splitOn "|"
  let keyboard_layout := (item_parts.getLastD "").trim
  let hard_drive := hardDriveOf item_parts
  let notes := "ID matki: " ++ matkiStr id_matki ++ "\n" ++
    "Klasa " ++ data_row.getD 7 "" ++ "\n" ++
    "Dysk: " ++ hard_drive ++ "\n"
  let notes := notes ++
    (if data_row.getD 8 "" = "TRUE" then "Wymiana klawiatury " ++ keyboard_layout ++ "\n"
     else "Klawiatura: " ++ keyboard_layout ++ "\n")
  if data_row.getD 9 "" = "TRUE" then notes ++ "Wymiana baterii\n" else notes

/-- The ERP order-creation payload assembled by create_new_order and its
helper methods (idosell.py lines 175-330). -/
structure OrderPayload where
  currencyId : String
  billingCurrency : String
  purchaseDate : String
  stockId : String
  clientFirstName : String
  clientLastName : String
  clientStreet : String
  clientZipCode : String
  clientCity : String
  clientCountry : String
  clientEmail : String
  clientPhone : String
  langId : String
  clientNip : Option String
  clientFirm : Option String
  deliveryFirstName : String
  deliveryLastName : String
  deliveryStreet : String
  deliveryZipCode : String
  deliveryCity : String
  deliveryCountry : String
  deliveryCountryId : String
  deliveryPhone : String
  deliveryFirm : String
  productId : String
  productStockId : String
  productRetailPrice : String
  productVat : String
  productBundleItems : List BundleItem
  clientNote : String
  remarksToProduct : String
  deriving DecidableEq, Repr

/-- The mother-component id of _prepare_product_details (idosell.py lines
311-327): the last bundle item flagged isBundleShown, if any. -/
def idMatkiOf (bundle : List BundleItem) : Option String :=
  bundle.foldl (fun acc b => if b.isBundleShown then some b.productId else acc) none

/-- IdoSellAPI.create_new_order (idosell.py lines 175-236) together with
its _prepare helpers, returning the outcome and the ordered trace of ERP
API calls issued.  The multi-item precondition is the first statement and
raises before anything else; the country-name lookups of
_prepare_client_details raise a KeyError for unmapped countries, still
before any ERP API call; only then the bundle is fetched and the creation
request is posted. -/
def create_new_order (env : ErpEnv) (ref_id : String) (data_row : List String)
    (ref_data : Order) : Except String (String × OrderPayload) × List ApiCall :=
  if ref_data.total_charged ≠ (ref_data.items.headD emptyItem).total_charged then
    (.error ("Order " ++ ref_id ++ " has more than one item. Please check the order in Refurbed."),
     [])
  else
    let is_iphone := data_row.getD 5 "" = "-1"
    let invoice := ref_data.invoice_address
    let shipping := ref_data.shipping_address
    match country_names invoice.country_code with
    | none => (.error ("KeyError: " ++ invoice.country_code), [])
    | some invCountry =>
      match country_names shipping.country_code with
      | none => (.error ("KeyError: " ++ shipping.country_code), [])
      | some shipCountry =>
        if env.productStatus ≠ 200 then
          (.error "Error fetching product", [ApiCall.getProduct (data_row.getD 6 "")])
        else
          let bundle := env.bundles (data_row.getD 6 "")
          let id_matki := idMatkiOf bundle
          let stockId := if data_row.getD 10 "" ≠ "" then lstripM (data_row.getD 10 "") else ""
          let vat_value := if data_row.getD 5 "" = "-1" then "0" else data_row.getD 5 ""
          let remarks :=
            if is_iphone = false then prepare_order_notes data_row id_matki
            else if data_row.getD 9 "" = "TRUE" then "Wymiana baterii na 100%"
            else ""
          let payload : OrderPayload :=
            ⟨ref_data.settlement_currency_code,
             ref_data.settlement_currency_code,
             (ref_data.released_at.splitOn "T").headD "",
             stockId,
             invoice.first_name,
             invoice.family_name,
             invoice.street_name ++ " " ++ invoice.house_no ++ " " ++ invoice.supplement,
             invoice.post_code,
             invoice.town,
             invCountry,
             ref_data.customer_email,
             invoice.phone_number,
             (lang_ids invoice.country_code).getD "eng",
             (if invoice.company_vatin ≠ "" then some invoice.company_vatin else none),
             (if invoice.company_vatin ≠ "" then some invoice.company_name else none),
             shipping.first_name,
             shipping.family_name,
             shipping.street_name ++ " " ++ shipping.house_no ++ " " ++ shipping.supplement,
             shipping.post_code,
             shipping.town,
             shipCountry,
             shipping.country_code,
             shipping.phone_number,
             shipping.company_name,
             data_row.getD 6 "",
             stockId,
             data_row.getD 4 "",
             vat_value,
             (bundle.map (fun b => b)),
             "[refurbed-api-id:" ++ ref_id ++ "]",
             remarks⟩
          if env.createStatus = 200 ∨ env.createStatus = 207 then
            (.ok (env.createSerial, payload),
             [ApiCall.getProduct (data_row.getD 6 ""), ApiCall.createOrder])
          else
            (.error "Error creating order",
             [ApiCall.getProduct (data_row.getD 6 ""), ApiCall.createOrder])

/-- The marketplace-order lookup of the create_orders loop (idosell.py
lines 113-118): first fetched order with a matching id, an empty record
otherwise. -/
def findRefOrder (refData : List Order) (ref_id : String) : Order :=
  match refData.find? (fun o => o.id == ref_id) with
  | some o => o
  | none => emptyOrder

/-- IdoSellAPI.create_orders (idosell.py lines 88-173): deduplicate the
pending rows by kit cell value, then attempt creation for every surviving
row, collecting the (ref_id, serial) pairs of the successful ones; the
second component is the list of ref_ids for which a creation was attempted,
in order. -/
def create_orders (env : ErpEnv) (pending : List (String × List String))
    (refData : List Order) : List (String × String) × List String :=
  let filtered := filterPendingRows pending
  (filtered.foldl (fun acc p =>
      match (create_new_order env p.1 p.2 (findRefOrder refData p.1)).1 with
      | .ok r => acc ++ [(p.1, r.1)]
      | .error _ => acc) [],
   filtered.map Prod.fst)

/-- ERP order detail relevant to the reconciler: status and dispatch
tracking id. -/
structure ErpOrderInfo where
  orderStatus : String
  deliveryPackageId : Option String
  deriving DecidableEq, Repr

/-- External behaviour injected into the reconciler: the ERP order store,
the item ids of each marketplace order, and the outcome of each
item-state-update call. -/
structure ReconEnv where
  erp : String → Option ErpOrderInfo
  itemsOf : String → List String
  changeOk : String → Bool

/-- IdoSellAPI.get_order_tracking_id (idosell.py lines 468-496): raises
when the ERP has no such order; otherwise the tracking id with the
finished flag, or a (None, None) pair when the dispatch carries no
tracking id. -/
def get_order_tracking_id (erp : String → Option ErpOrderInfo) (order_id : String) :
    Except String (Option String × Option Bool) :=
  match erp order_id with
  | none => .error ("Error: No order found with ID " ++ order_id ++ ". Tracking number not updated")
  | some info =>
    match info.deliveryPackageId with
    | some t => .ok (some t, some (info.orderStatus == "finished"))
    | none => .ok (none, none)

/-- The running counters of Integration.process_orders (main.py lines
284-349), plus the trace of marketplace item-state transitions issued:
(item id, state, tracking number). -/
structure ProcResult where
  processed : Nat
  success : Nat
  failed : Nat
  failedOrders : List String
  transitions : List (String × String × Option String)
  deriving DecidableEq, Repr

/-- One tracked pair of the Integration.process_orders loop (main.py lines
316-332): a finished order with a tracking id transitions every item of
the marketplace order to SHIPPED (failed change_state calls are counted)
and counts as a success; every other tracking outcome counts the pair as
failed and records its ERP id. -/
def reconRow (env : ReconEnv) (acc : ProcResult) (refurbed_id idosell_id : String) :
    Except String ProcResult :=
  match get_order_tracking_id env.erp idosell_id with
  | .error e => .error e
  | .ok (tracking, isFinished) =>
    match isFinished with
    | some true =>
      let items := env.itemsOf refurbed_id
      let failedItems := (items.filter (fun it => env.changeOk it = false)).length
      .ok ⟨acc.processed + 1, acc.success + 1, acc.failed + failedItems,
        acc.failedOrders,
        acc.transitions ++ items.map (fun it => (it, "SHIPPED", tracking))⟩
    | some false =>
      .ok ⟨acc.processed + 1, acc.success, acc.failed + 1,
        acc.failedOrders ++ [idosell_id], acc.transitions⟩
    | none =>
      .ok ⟨acc.processed + 1, acc.success, acc.failed + 1,
        acc.failedOrders ++ [idosell_id], acc.transitions⟩

/-- The row loop of Integration.process_orders: rows with fewer than five
cells or an empty id in cell 3 or 4 are skipped. -/
def reconGo (env : ReconEnv) : List (List String) → ProcResult → Except String ProcResult
  | [], acc => .ok acc
  | row :: rest, acc =>
    if row.length < 5 then reconGo env rest acc
    else if row.getD 3 "" = "" ∨ row.getD 4 "" = "" then reconGo env rest acc
    else
      match reconRow env acc (row.getD 3 "") (row.getD 4 "") with
      | .error e => .error e
      | .ok acc2 => reconGo env rest acc2

/-- Integration.process_orders (main.py lines 284-349) over the config
rows. -/
def process_orders_recon (env : ReconEnv) (config_data : List (List String)) :
    Except String ProcResult :=
  reconGo env (config_data.drop 1) ⟨0, 0, 0, [], []⟩

/-- The cursor stored in the config sheet: cell A2, read as config[1][0]
(refurbed.py line 96). -/
def configCursorCell (config : List (List String)) : String :=
  (config.getD 1 []).getD 0 ""

/-- RefurbedAPI.get_last_order_id (refurbed.py lines 88-119): prefer the ID
cell of the last Orders row; fall back to the config cursor when the sheet
has no data rows, the header has no ID column, or the last row has no
non-empty cell in the ID column. -/
def get_last_order_id (allValues config : List (List String)) : String :=
  if allValues.length ≤ 1 then configCursorCell config
  else
    match (allValues.headD []).findIdx? (fun h => h == "ID") with
    | none => configCursorCell config
    | some idx =>
      let lastRow := allValues.getLastD []
      if idx < lastRow.length ∧ lastRow.getD idx "" ≠ "" then lastRow.getD idx ""
      else configCursorCell config

theorem orderRow_vat (o : Order) :
    (orderRow o).getD 5 (Cell.s "") =
      vatValue o.shipping_address.country_code o.invoice_address.company_vatin
        (o.items.headD emptyItem).name := rfl

theorem vatValue_known (cc vn nm : String) (r : ℚ) (hni : isIphone nm = false)
    (hr : vat_rates cc = some r) :
    vatValue cc vn nm =
      if vn ≠ "" then (if cc = "PL" then Cell.num 23 else Cell.num 0) else Cell.num r := by
  unfold vatValue
  rw [if_pos hni, hr]

theorem vatValue_unknown (cc vn nm : String) (hni : isIphone nm = false)
    (hcc : vat_rates cc = none) : vatValue cc vn nm = Cell.num 0 := by
  unfold vatValue
  rw [if_pos hni, hcc]

theorem vatValue_iphone (cc vn nm : String) (hip : isIphone nm = true) :
    vatValue cc vn nm = Cell.num (-1) := by
  unfold vatValue
  rw [if_neg]
  simp [hip]

/-- C1: for a non premium-margin order (first item name without iphone) with
a destination country in the rate table, the vat cell of the mapped row is
the table value when the invoice address has no business tax id (spot
checks DE is 19, FI is 25.5, PL is 23), and with a tax id it is 0 except
for PL where it stays 23; for every premium-margin order the vat cell is
the -1 sentinel. -/
theorem vat_row_policy :
    (∀ o : Order,
        isIphone (o.items.headD emptyItem).name = false →
        (vat_rates o.shipping_address.country_code).isSome = true →
          ((o.invoice_address.company_vatin = "" →
              (orderRow o).getD 5 (Cell.s "") =
                Cell.num ((vat_rates o.shipping_address.country_code).getD 0))
            ∧ (o.invoice_address.company_vatin ≠ "" →
              (orderRow o).getD 5 (Cell.s "") =
                Cell.num (if o.shipping_address.country_code = "PL" then 23 else 0))))
    ∧ vat_rates "DE" = some 19 ∧ vat_rates "FI" = some (51 / 2) ∧ vat_rates "PL" = some 23
    ∧ (∀ o : Order,
        isIphone (o.items.headD emptyItem).name = true →
          (orderRow o).getD 5 (Cell.s "") = Cell.num (-1)) := by
  refine ⟨?_, by rfl, by rfl, by rfl, ?_⟩
  · intro o hni hsome
    rw [orderRow_vat]
    rcases Option.isSome_iff_exists.mp hsome with ⟨r, hr⟩
    rw [vatValue_known _ _ _ r hni hr]
    constructor
    · intro hv
      rw [if_neg (by simp [hv]), hr]
      rfl
    · intro hv
      rw [if_pos hv]
      by_cases hpl : o.shipping_address.country_code = "PL"
      · rw [if_pos hpl, if_pos hpl]
      · rw [if_neg hpl, if_neg hpl]
  · intro o hip
    rw [orderRow_vat, vatValue_iphone _ _ _ hip]

def orderDE : Order :=
  ⟨"900", "NEW", "EUR", "1000", 1000, "2024-01-02T10:00:00Z", "a@b.de",
   [⟨"MacBook Pro 13 | 512 GB SSD | DE", "SKU-1", some ⟨"B", "NEW"⟩, 1000⟩],
   ⟨"DE", "Max", "Muster", "48100", "", "", "Weg", "1", "", "10115", "Berlin"⟩,
   ⟨"DE", "Max", "Muster", "48100", "", "", "Weg", "1", "", "10115", "Berlin"⟩⟩

theorem vat_row_policy_witness :
    (orderRow orderDE).getD 5 (Cell.s "") = Cell.num 19 := by
  have h := (vat_row_policy.1 orderDE (by decide) (by decide)).1 rfl
  rw [h]
  decide

def orderGB : Order :=
  ⟨"901", "NEW", "EUR", "500", 500, "2024-01-02T10:00:00Z", "c@d.uk",
   [⟨"MacBook Air 13 | 256 GB SSD | UK", "SKU-2", none, 500⟩],
   ⟨"GB", "Ann", "Smith", "1", "", "", "Road", "2", "", "AB1", "London"⟩,
   ⟨"GB", "Ann", "Smith", "1", "GB999", "Acme Ltd", "Road", "2", "", "AB1", "London"⟩⟩

/-- C6 counterexample: for a non premium-margin order whose destination
country GB has no rate table entry, and whose invoice address carries a
business tax id, the row mapper writes the number 0 into the vat cell, not
the empty marker the claim requires. -/
theorem unmapped_vat_counterexample :
    (orderRow orderGB).getD 5 (Cell.s "") = Cell.num 0 ∧
      (orderRow orderGB).getD 5 (Cell.s "") ≠ Cell.s "" := by
  decide

/-- C6 amended: for every non premium-margin order whose destination
country has no entry in the rate table, the vat cell of the mapped row is
the number 0 (the unchanged initial value), tax id present or not. -/
theorem unmapped_vat_zero (o : Order)
    (hni : isIphone (o.items.headD emptyItem).name = false)
    (hcc : vat_rates o.shipping_address.country_code = none) :
    (orderRow o).getD 5 (Cell.s "") = Cell.num 0 := by
  rw [orderRow_vat, vatValue_unknown _ _ _ hni hcc]

theorem unmapped_vat_zero_witness :
    (orderRow orderGB).getD 5 (Cell.s "") = Cell.num 0 :=
  unmapped_vat_zero orderGB (by decide) (by decide)

theorem processOrders_fst_aux (l : List Order) (acc : List (List Cell) × String) :
    (l.foldl (fun acc o => (acc.1 ++ [orderRow o], o.id)) acc).1 = acc.1 ++ l.map orderRow := by
  induction l generalizing acc with
  | nil => simp
  | cons o rest ih => simp [ih]

theorem processOrders_fst (l : List Order) : (processOrders l).1 = l.map orderRow := by
  have h := processOrders_fst_aux l ([], "")
  simpa [processOrders] using h

/-- C5: the recovery scan appends exactly one row per fetched order whose
id is absent from the ids of the last 100 sheet rows and whose state is
neither SHIPPED nor CANCELLED, written in reverse-fetched order, and
returns the count of those orders (0 when none are missing). -/
theorem fetch_missing_spec (st : SheetState) (orders : List Order) :
    (fetch_missing_orders st orders).1.ordersRows =
        st.ordersRows ++ ((missingFilter st.ordersRows orders).map orderRow).reverse
      ∧ (fetch_missing_orders st orders).2 = (missingFilter st.ordersRows orders).length := by
  unfold fetch_missing_orders
  by_cases h : missingFilter st.ordersRows orders = []
  · simp [h]
  · simp [h, update_sheets, processOrders_fst]

/-- C7: neither update_sheets with an empty last id nor the recovery scan
modifies the persisted fetch cursor. -/
theorem cursor_preserved :
    (∀ st rows, (update_sheets st rows "").cursorCell = st.cursorCell)
    ∧ (∀ st orders, ((fetch_missing_orders st orders).1).cursorCell = st.cursorCell) := by
  constructor
  · intro st rows
    simp [update_sheets]
  · intro st orders
    unfold fetch_missing_orders
    by_cases h : missingFilter st.ordersRows orders = []
    · simp [h]
    · simp [h, update_sheets]

theorem takeWhileNonEmptyCons (row : List String) (rest : List (List String))
    (hrow : row ≠ []) :
    (row :: rest).takeWhile (fun r => !r.isEmpty) =
      row :: rest.takeWhile (fun r => !r.isEmpty) := by
  rw [List.takeWhile_cons]
  simp [List.isEmpty_iff, hrow]

theorem pendingScan_spec (l : List (List String)) : ∀ i : Nat,
    (∀ r ∈ l.takeWhile (fun r => !r.isEmpty), 2 ≤ r.length) →
    pendingScan i l =
      (((l.takeWhile (fun r => !r.isEmpty)).enumFrom i).filter
        (fun p => pendingPred p.2)).map Prod.fst := by
  induction l with
  | nil => intro i _; rfl
  | cons row rest ih =>
    intro i h
    by_cases hrow : row = []
    · subst hrow
      simp [pendingScan]
    · have hlen : 2 ≤ row.length := by
        apply h
        rw [takeWhileNonEmptyCons row rest hrow]
        exact List.mem_cons_self _ _
      have hrest : ∀ r ∈ rest.takeWhile (fun r => !r.isEmpty), 2 ≤ r.length := by
        intro r hr
        apply h
        rw [takeWhileNonEmptyCons row rest hrow]
        exact List.mem_cons_of_mem _ hr
      rw [takeWhileNonEmptyCons row rest hrow]
      by_cases hp : toUpperStr (row.getD 0 "") = "TRUE" ∧ row.getD 1 "" = "NEW"
      · have hb : pendingPred row = true := by
          unfold pendingPred
          rw [hp.1, hp.2]
          rfl
        simp only [pendingScan, if_neg hrow, if_pos hlen, if_pos hp, List.enumFrom_cons,
          List.filter_cons, hb, ih (i + 1) hrest]
        simp
      · have hb : pendingPred row = false := by
          cases hpb : pendingPred row
          · rfl
          · unfold pendingPred at hpb
            simp only [Bool.and_eq_true, beq_iff_eq] at hpb
            exact absurd hpb hp
        simp only [pendingScan, if_neg hrow, if_pos hlen, if_neg hp, List.enumFrom_cons,
          List.filter_cons, hb, ih (i + 1) hrest]
        simp

/-- C4: under the sparse-table assumption (every row before the first
structurally empty row has both a checkbox and a state cell),
get_pending_rows returns exactly the sheet row numbers (first data row =
row 2) of the rows whose checkbox cell case-insensitively equals TRUE and
whose state cell equals NEW, in top-to-bottom order; on the table
[checked NEW, unchecked NEW, checked ACCEPTED, checked NEW] it returns the
first and fourth data rows, rows 2 and 5. -/
theorem get_pending_rows_spec :
    (∀ data : List (List String),
        (∀ r ∈ (data.drop 1).takeWhile (fun r => !r.isEmpty), 2 ≤ r.length) →
        get_pending_rows data = pendingSpec data)
    ∧ get_pending_rows
        [["checkbox", "r_state"], ["TRUE", "NEW"], ["FALSE", "NEW"],
         ["TRUE", "ACCEPTED"], ["TRUE", "NEW"]] = [2, 5] := by
  constructor
  · intro data h
    exact pendingScan_spec (data.drop 1) 2 h
  · decide

theorem get_pending_rows_spec_witness :
    get_pending_rows [["checkbox", "r_state"], ["TRUE", "NEW"], ["FALSE", "NEW"]] =
      pendingSpec [["checkbox", "r_state"], ["TRUE", "NEW"], ["FALSE", "NEW"]] :=
  get_pending_rows_spec.1 _ (by decide)

/-- C2: whenever the total charged of the marketplace order differs from
the total charged of its first item, create_new_order rejects the order
with an error naming it, and the trace of ERP API calls issued for the
order is empty: the rejection happens before the product lookup and before
the creation request. -/
theorem create_order_precondition (env : ErpEnv) (ref_id : String)
    (data_row : List String) (ref_data : Order) (hitems : ref_data.items ≠ [])
    (h : ref_data.total_charged ≠ (ref_data.items.headD emptyItem).total_charged) :
    create_new_order env ref_id data_row ref_data =
      (.error ("Order " ++ ref_id ++ " has more than one item. Please check the order in Refurbed."),
       []) := by
  unfold create_new_order
  rw [if_pos h]

def envW : ErpEnv := ⟨fun _ => [], 200, 200, "555"⟩

def addrPL : Address :=
  ⟨"PL", "Jan", "Nowak", "500100100", "", "", "Prosta", "5", "", "00-001", "Warszawa"⟩

def orderMulti : Order :=
  ⟨"999", "NEW", "EUR", "100.00", 100, "2024-01-02T10:00:00Z", "x@y.z",
   [⟨"MacBook Pro 13 | 512 GB SSD | DE", "S1", none, 60⟩],
   addrPL, addrPL⟩

def pendingRow999 : List String :=
  ["TRUE", "NEW", "PL", "EUR", "100.00", "23", "KIT1", "A 2", "FALSE", "FALSE", "M1", "",
   "S1", "MacBook Pro 13 | 512 GB SSD | DE", "x@y.z", "Jan", "Nowak", "500100100", "999"]

theorem create_order_precondition_witness :
    create_new_order envW "999" pendingRow999 orderMulti =
      (.error "Order 999 has more than one item. Please check the order in Refurbed.", []) :=
  create_order_precondition envW "999" pendingRow999 orderMulti (by decide) (by decide)

def rowKitA : List String :=
  ["TRUE", "NEW", "DE", "EUR", "100", "19", "", "A 2", "FALSE", "FALSE", "M1", "", "SKU-A",
   "MacBook Pro 13 | 512 GB SSD | DE", "a@b.c", "A", "B", "1", "r1"]

def rowKitB : List String :=
  ["TRUE", "NEW", "DE", "EUR", "200", "19", "", "A-", "FALSE", "FALSE", "M1", "", "SKU-B",
   "MacBook Air 13 | 256 GB SSD | DE", "c@d.e", "C", "D", "2", "r2"]

/-- C3 counterexample: two pending rows with distinct marketplace ids r1
and r2 that both lack a kit key (empty kit cell): the deduplication keeps
only the first, so creation is attempted for r1 alone and the second row is
dropped, refuting the claim that both rows are submitted. -/
theorem kit_dedup_counterexample :
    (create_orders envW [("r1", rowKitA), ("r2", rowKitB)] []).2 = ["r1"] ∧
      ("r2", rowKitB) ∉ filterPendingRows [("r1", rowKitA), ("r2", rowKitB)] := by
  decide

theorem filterPendingGo_sub (seen : List String) (l : List (String × List String)) :
    ∀ p ∈ filterPendingGo seen l, p ∈ l := by
  induction l generalizing seen with
  | nil =>
    intro p hp
    exact absurd hp (by simp [filterPendingGo])
  | cons q rest ih =>
    intro p hp
    unfold filterPendingGo at hp
    by_cases hk : kitOf q.2 ∈ seen
    · rw [if_pos hk] at hp
      exact List.mem_cons_of_mem _ (ih seen p hp)
    · rw [if_neg hk] at hp
      rcases List.mem_cons.mp hp with h1 | h1
      · rw [h1]
        exact List.mem_cons_self _ _
      · exact List.mem_cons_of_mem _ (ih _ p h1)

theorem mem_filterPendingGo (l : List (String × List String)) :
    ∀ (seen : List String), l.Nodup → ∀ (j : Nat) (hj : j < l.length),
    (l.get ⟨j, hj⟩ ∈ filterPendingGo seen l ↔
      (kitOf (l.get ⟨j, hj⟩).2 ∉ seen ∧
        ∀ (i : Nat) (hi : i < j),
          kitOf (l.get ⟨i, Nat.lt_trans hi hj⟩).2 ≠ kitOf (l.get ⟨j, hj⟩).2)) := by
  induction l with
  | nil =>
    intro seen _ j hj
    exact absurd hj (by simp)
  | cons q rest ih =>
    intro seen hnd j hj
    have hndr : rest.Nodup := (List.nodup_cons.mp hnd).2
    have hqnr : q ∉ rest := (List.nodup_cons.mp hnd).1
    cases j with
    | zero =>
      unfold filterPendingGo
      by_cases hk : kitOf q.2 ∈ seen
      · rw [if_pos hk]
        constructor
        · intro hmem
          exact absurd (filterPendingGo_sub seen rest q hmem) hqnr
        · intro hrhs
          exact absurd hk hrhs.1
      · rw [if_neg hk]
        constructor
        · intro _
          exact ⟨hk, fun i hi => absurd hi (Nat.not_lt_zero i)⟩
        · intro _
          exact List.mem_cons_self _ _
    | succ jj =>
      have hj2 : jj < rest.length := Nat.lt_of_succ_lt_succ hj
      show rest.get ⟨jj, hj2⟩ ∈ filterPendingGo seen (q :: rest) ↔
        (kitOf (rest.get ⟨jj, hj2⟩).2 ∉ seen ∧
          ∀ (i : Nat) (hi : i < jj + 1),
            kitOf ((q :: rest).get ⟨i, Nat.lt_trans hi hj⟩).2 ≠
              kitOf (rest.get ⟨jj, hj2⟩).2)
      unfold filterPendingGo
      by_cases hk : kitOf q.2 ∈ seen
      · rw [if_pos hk, ih seen hndr jj hj2]
        constructor
        · intro hin
          refine ⟨hin.1, ?_⟩
          intro i hi
          cases i with
          | zero =>
            show kitOf q.2 ≠ kitOf (rest.get ⟨jj, hj2⟩).2
            intro he
            exact hin.1 (he ▸ hk)
          | succ ii =>
            show kitOf (rest.get ⟨ii, Nat.lt_of_succ_lt_succ (Nat.lt_trans hi hj)⟩).2 ≠
              kitOf (rest.get ⟨jj, hj2⟩).2
            exact hin.2 ii (Nat.lt_of_succ_lt_succ hi)
        · intro hin
          refine ⟨hin.1, ?_⟩
          intro i hi
          exact hin.2 (i + 1) (Nat.succ_lt_succ hi)
      · rw [if_neg hk]
        have hne : (rest.get ⟨jj, hj2⟩) ≠ q := by
          intro he
          exact hqnr (he ▸ rest.get_mem jj hj2)
        constructor
        · intro hmem
          rcases List.mem_cons.mp hmem with h1 | h1
          · exact absurd h1 hne
          · have hrec := (ih (kitOf q.2 :: seen) hndr jj hj2).mp h1
            rcases hrec with ⟨hnot, hrest⟩
            refine ⟨fun hs => hnot (List.mem_cons_of_mem _ hs), ?_⟩
            intro i hi
            cases i with
            | zero =>
              show kitOf q.2 ≠ kitOf (rest.get ⟨jj, hj2⟩).2
              intro he
              apply hnot
              rw [← he]
              exact List.mem_cons_self _ _
            | succ ii =>
              show kitOf (rest.get ⟨ii, Nat.lt_of_succ_lt_succ (Nat.lt_trans hi hj)⟩).2 ≠
                kitOf (rest.get ⟨jj, hj2⟩).2
              exact hrest ii (Nat.lt_of_succ_lt_succ hi)
        · intro hin
          apply List.mem_cons_of_mem
          apply (ih (kitOf q.2 :: seen) hndr jj hj2).mpr
          constructor
          · intro hs
            rcases List.mem_cons.mp hs with h1 | h1
            · exact hin.2 0 (Nat.succ_pos jj) h1.symm
            · exact hin.1 h1
          · intro i hi
            exact hin.2 (i + 1) (Nat.succ_lt_succ hi)

/-- C3 amended: a pending row is dropped whenever its kit cell value,
present or empty, already occurred in an earlier pending row; creation is
attempted exactly for the surviving rows, so of several rows lacking a kit
key only the first is submitted to the ERP. -/
theorem kit_dedup_amended (env : ErpEnv) (pending : List (String × List String))
    (refData : List Order) (hnd : (pending.map Prod.fst).Nodup)
    (j : Nat) (hj : j < pending.length) :
    (create_orders env pending refData).2 = (filterPendingRows pending).map Prod.fst
    ∧ (pending.get ⟨j, hj⟩ ∈ filterPendingRows pending ↔
        ∀ (i : Nat) (hi : i < j),
          kitOf (pending.get ⟨i, Nat.lt_trans hi hj⟩).2 ≠
            kitOf (pending.get ⟨j, hj⟩).2) := by
  constructor
  · rfl
  · have h := mem_filterPendingGo pending [] (List.Nodup.of_map Prod.fst hnd) j hj
    unfold filterPendingRows
    rw [h]
    simp

theorem kit_dedup_amended_witness :
    (create_orders envW [("r1", rowKitA), ("r2", rowKitB)] []).2 =
      (filterPendingRows [("r1", rowKitA), ("r2", rowKitB)]).map Prod.fst :=
  (kit_dedup_amended envW [("r1", rowKitA), ("r2", rowKitB)] [] (by decide) 1 (by decide)).1

def cfgCX : List (List String) :=
  [["h1", "h2", "h3", "h4", "h5"], ["", "", "", "", ""]]

def createdCX : List (String × String) := [("r1", "i1"), ("r2", "i2")]

/-- C8 counterexample: a config table with exactly one free slot and two
created orders: update_config appends two new rows and leaves the free
slot unfilled, refuting the claim that every free slot found is filled
before any new config row is appended. -/
theorem config_slot_counterexample :
    update_config cfgCX createdCX =
      [["h1", "h2", "h3", "h4", "h5"], ["", "", "", "", ""],
       ["", "", "", "r1", "i1"], ["", "", "", "r2", "i2"]] ∧
      (update_config cfgCX createdCX).getD 1 [] = ["", "", "", "", ""] := by
  decide

theorem setPairAt_length (config : List (List String)) (r : Nat) (p : String × String) :
    (setPairAt config r p).length = config.length := by
  simp [setPairAt]

theorem fillSlots_length (rs : List Nat) :
    ∀ (config : List (List String)) (ps : List (String × String)),
    (fillSlots config rs ps).length = config.length := by
  induction rs with
  | nil =>
    intro config ps
    rfl
  | cons r rest ih =>
    intro config ps
    cases ps with
    | nil => rfl
    | cons p ps2 =>
      show (fillSlots (setPairAt config r p) rest ps2).length = config.length
      rw [ih (setPairAt config r p) ps2, setPairAt_length]

theorem update_config_eq (config : List (List String)) (created : List (String × String))
    (h : created ≠ []) :
    update_config config created =
      match get_config_rows (Int.ofNat created.length) config with
      | some slots =>
        if created.length ≤ slots.length then
          fillSlots config (slots.take created.length) created
        else config ++ appendedPairRows created
      | none => config ++ appendedPairRows created := by
  unfold update_config
  rw [if_neg h]

/-- C8 amended: with a non-empty list of created orders, whenever the slot
scan finds at least as many free slots as created orders, every pair is
written into a free slot (the first created.length of them) and the config
table keeps its length, with nothing appended; and whenever the scan finds
nothing (or aborts) or finds fewer free slots than created orders, no slot
is filled and every pair is appended as a new config row. -/
theorem update_config_policy (config : List (List String))
    (created : List (String × String)) (h : created ≠ []) :
    (∀ slots, get_config_rows (Int.ofNat created.length) config = some slots →
        created.length ≤ slots.length →
        update_config config created = fillSlots config (slots.take created.length) created
          ∧ (update_config config created).length = config.length)
    ∧ ((get_config_rows (Int.ofNat created.length) config = none ∨
        (∃ slots, get_config_rows (Int.ofNat created.length) config = some slots ∧
          slots.length < created.length)) →
        update_config config created = config ++ appendedPairRows created) := by
  have he := update_config_eq config created h
  constructor
  · intro slots hg hle
    constructor
    · simp only [he, hg]
      rw [if_pos hle]
    · simp only [he, hg]
      rw [if_pos hle]
      exact fillSlots_length _ _ _
  · intro hcase
    rcases hcase with hg | ⟨slots, hg, hlt⟩
    · simp only [he, hg]
    · simp only [he, hg]
      rw [if_neg (not_le.mpr hlt)]

def cfgFill : List (List String) :=
  [["h1", "h2", "h3", "h4", "h5"], ["", "", "", "", ""], ["", "", "", "", ""]]

theorem update_config_policy_witness :
    (update_config cfgFill createdCX = fillSlots cfgFill ([2, 3].take 2) createdCX
        ∧ (update_config cfgFill createdCX).length = cfgFill.length)
    ∧ update_config cfgCX createdCX = cfgCX ++ appendedPairRows createdCX :=
  ⟨(update_config_policy cfgFill createdCX (by decide)).1 [2, 3] (by decide) (by decide),
   (update_config_policy cfgCX createdCX (by decide)).2
     (Or.inr ⟨[2], by decide, by decide⟩)⟩

def envRecon : ReconEnv :=
  ⟨fun d => if d = "d1" then some ⟨"finished", none⟩ else none, fun _ => [], fun _ => true⟩

/-- C9 counterexample: a tracked pair (r1, d1) whose ERP order is finished
but has no tracking id: the reconciler issues no marketplace transition,
yet it counts the pair as failed and lists d1 in failed_orders, refuting
the claim that the pair is not reported as a failure. -/
theorem finished_no_tracking_counterexample :
    process_orders_recon envRecon [["c1", "c2", "c3", "c4", "c5"], ["", "", "", "r1", "d1"]] =
      .ok ⟨1, 0, 1, ["d1"], []⟩ := by
  rfl

/-- C9 amended: a tracked pair whose ERP order is finished but carries no
tracking id gets no marketplace state transition and its config pairing is
left untouched, but the reconciler does count it as failed and appends its
ERP id to failed_orders. -/
theorem finished_no_tracking (env : ReconEnv) (acc : ProcResult) (r d : String)
    (h : env.erp d = some ⟨"finished", none⟩) :
    reconRow env acc r d =
      .ok ⟨acc.processed + 1, acc.success, acc.failed + 1, acc.failedOrders ++ [d],
        acc.transitions⟩ := by
  unfold reconRow get_order_tracking_id
  rw [h]

theorem finished_no_tracking_witness :
    reconRow envRecon ⟨0, 0, 0, [], []⟩ "r1" "d1" =
      .ok ⟨1, 0, 1, ["d1"], []⟩ :=
  finished_no_tracking envRecon ⟨0, 0, 0, [], []⟩ "r1" "d1" (by rfl)

/-- C10: get_last_order_id uses the ID cell of the last Orders row as the
cursor whenever the sheet has a data row, the header has an ID column and
that cell is non-empty; when any of those conditions fails it falls back to
the config cursor cell. -/
theorem last_order_id_spec (allValues config : List (List String)) :
    (∀ idx : Nat, 1 < allValues.length →
        (allValues.headD []).findIdx? (fun h => h == "ID") = some idx →
        idx < (allValues.getLastD []).length →
        (allValues.getLastD []).getD idx "" ≠ "" →
        get_last_order_id allValues config = (allValues.getLastD []).getD idx "")
    ∧ ((allValues.length ≤ 1 ∨
        (allValues.headD []).findIdx? (fun h => h == "ID") = none ∨
        (∃ idx, (allValues.headD []).findIdx? (fun h => h == "ID") = some idx ∧
          ¬(idx < (allValues.getLastD []).length ∧
            (allValues.getLastD []).getD idx "" ≠ ""))) →
        get_last_order_id allValues config = configCursorCell config) := by
  constructor
  · intro idx h1 h2 h3 h4
    unfold get_last_order_id
    rw [if_neg (not_le.mpr h1)]
    simp only [h2]
    rw [if_pos ⟨h3, h4⟩]
  · intro hcase
    unfold get_last_order_id
    by_cases hlen : allValues.length ≤ 1
    · rw [if_pos hlen]
    · rw [if_neg hlen]
      rcases hcase with h | h | ⟨idx, hidx, hcond⟩
      · exact absurd h hlen
      · simp only [h]
      · simp only [hidx]
        rw [if_neg hcond]

def ordersSheetW : List (List String) := [["checkbox", "ID"], ["FALSE", "42"]]

def configSheetW : List (List String) := [["last_id"], ["7"]]

theorem last_order_id_spec_witness :
    get_last_order_id ordersSheetW configSheetW = "42" := by
  have h := (last_order_id_spec ordersSheetW configSheetW).1 1 (by decide) (by decide)
    (by decide) (by decide)
  exact h
